import Mathlib

/-!
Verification development for the AI learning-coach RAG core
(`learning-coach-mcp/src/rag/`): a shallow embedding in Lean 4 of the
retriever, synthesizer, evaluator/quality gate, digest generator and
insight search, together with theorems settling the specification
claims about them.

Conventions of the embedding:
* Python `float` values (similarity scores, weights, RAGAS metrics) are
  modelled as `ℚ`; timestamps are modelled at day granularity as `ℤ`
  (the code only ever uses `(now - published_at).days`).
* Calls to external services (OpenAI embeddings, Supabase, Anthropic)
  are modelled as oracle values of type `Except String α`: `.error e`
  stands for the call raising an exception with message `e`, `.ok v`
  for it returning `v`.  Python `try ... except Exception` blocks become
  `match` on these `Except` values.
* Python dictionaries with a fixed key set become structures; optional
  keys become `Option` fields.
-/

namespace LearningCoach

/-- A content chunk as returned by the `match_embeddings` vector search
(`retriever.py`).  `published_at` is the publication timestamp in days,
`similarity` the query-time cosine similarity, `source_priority` the
1-5 integer priority from the source configuration. -/
structure Chunk where
  id : String
  source_id : String
  chunk_text : String
  content_title : String
  similarity : ℚ
  published_at : ℤ
  source_priority : ℤ
deriving DecidableEq

/-- The per-chunk score record stored under `chunk["scores"]` by
`_apply_hybrid_ranking`. -/
structure ChunkScores where
  similarity : ℚ
  recency : ℚ
  priority : ℚ
  hybrid : ℚ
deriving DecidableEq

/-- A chunk enriched with ranking scores (`chunk["scores"]`,
`chunk["final_score"]`), as produced by `_apply_hybrid_ranking`. -/
structure RankedChunk where
  chunk : Chunk
  scores : ChunkScores
  final_score : ℚ
deriving DecidableEq

/-- Scoring of one chunk inside the loop of
`VectorRetriever._apply_hybrid_ranking` (retriever.py lines 190-216):
`days_old = (now - published_at).days`,
`recency_factor = max(0, 1 - days_old/30)`,
`priority_factor = source_priority / 5.0`,
`hybrid = w_sim*similarity + w_rec*recency + w_pri*priority`. -/
def score_chunk (now : ℤ) (similarity_weight recency_weight priority_weight : ℚ)
    (c : Chunk) : RankedChunk :=
  let similarity := c.similarity
  let days_old : ℤ := now - c.published_at
  let recency_factor : ℚ := max 0 (1 - (days_old : ℚ) / 30)
  let priority_factor : ℚ := (c.source_priority : ℚ) / 5
  let hybrid_score :=
    similarity_weight * similarity
      + recency_weight * recency_factor
      + priority_weight * priority_factor
  { chunk := c
    scores :=
      { similarity := similarity
        recency := recency_factor
        priority := priority_factor
        hybrid := hybrid_score }
    final_score := hybrid_score }

/-- `VectorRetriever._apply_hybrid_ranking`: score every chunk, then
sort by `final_score` descending (Python `list.sort` is stable, and so
is `List.mergeSort`). -/
def apply_hybrid_ranking (now : ℤ)
    (recency_weight priority_weight similarity_weight : ℚ)
    (chunks : List Chunk) : List RankedChunk :=
  (chunks.map (score_chunk now similarity_weight recency_weight priority_weight)).mergeSort
    (fun a b => decide (b.final_score ≤ a.final_score))

/-- The source id of a ranked chunk. -/
def srcId (c : RankedChunk) : String := c.chunk.source_id

/-- The first pass of `VectorRetriever._ensure_source_diversity`
(retriever.py lines 249-260): walk the ranked list, collecting the
first chunk of each unseen source into `diverse` and every other chunk
into `remaining`; break out of the loop as soon as
`len(seen_sources) >= min_sources and len(diverse_chunks) >= top_k`.
The Python `seen_sources` set is represented as a duplicate-free list. -/
def diversityLoop (min_sources top_k : ℕ) :
    List RankedChunk → List String → List RankedChunk → List RankedChunk →
      List RankedChunk × List RankedChunk
  | [], _, diverse, remaining => (diverse, remaining)
  | c :: rest, seen_sources, diverse, remaining =>
    if srcId c ∈ seen_sources then
      diversityLoop min_sources top_k rest seen_sources diverse (remaining ++ [c])
    else
      let seen' := srcId c :: seen_sources
      let diverse' := diverse ++ [c]
      if min_sources ≤ seen'.length ∧ top_k ≤ diverse'.length then
        (diverse', remaining)
      else
        diversityLoop min_sources top_k rest seen' diverse' remaining

/-- `VectorRetriever._ensure_source_diversity` (retriever.py lines
223-267): the diversity first pass, then a second pass backfilling from
`remaining` while fewer than `top_k` chunks are held, and a final
truncation `diverse_chunks[:top_k]`. -/
def ensure_source_diversity (chunks : List RankedChunk)
    (min_sources top_k : ℕ) : List RankedChunk :=
  if chunks.isEmpty then []
  else
    let p := diversityLoop min_sources top_k chunks [] [] []
    let diverse_chunks := p.1
    let remaining_chunks := p.2
    let filled :=
      if diverse_chunks.length < top_k then
        diverse_chunks ++ remaining_chunks.take (top_k - diverse_chunks.length)
      else diverse_chunks
    filled.take top_k

/-- Number of distinct `source_id`s appearing in a chunk list. -/
def countSources (l : List RankedChunk) : ℕ := ((l.map srcId).dedup).length

/-- `VectorRetriever.retrieve` (retriever.py lines 45-109) with the
embedding call and the vector search modelled as oracles: embed the
query, fetch `top_k * 2` candidates above the similarity threshold,
return `[]` when nothing clears the threshold, otherwise rank and
diversify.  Exceptions from either oracle propagate (`_vector_search`
re-raises after logging). -/
def retrieve (embedOutcome : Except String (List ℚ))
    (vectorSearch : List ℚ → Except String (List Chunk))
    (now : ℤ) (top_k : ℕ) (min_sources : ℕ)
    (recency_weight priority_weight similarity_weight : ℚ) :
    Except String (List RankedChunk) := do
  let query_embedding ← embedOutcome
  let similar_chunks ← vectorSearch query_embedding
  if similar_chunks.isEmpty then
    return []
  let ranked_chunks :=
    apply_hybrid_ranking now recency_weight priority_weight similarity_weight similar_chunks
  return ensure_source_diversity ranked_chunks min_sources top_k

/-- RAGAS score record (`evaluator.py`): the three metrics plus their
average. -/
structure QualityScores where
  faithfulness : ℚ
  context_precision : ℚ
  context_recall : ℚ
  average : ℚ
deriving DecidableEq

/-- `RAGASEvaluator.passes_quality_gate` (evaluator.py lines 197-214):
iterate over the three required metrics and return `false` as soon as
one is below `min_score`; the `average` field is never consulted. -/
def passes_quality_gate (min_score : ℚ) (scores : QualityScores) : Bool :=
  if scores.faithfulness < min_score then false
  else if scores.context_precision < min_score then false
  else if scores.context_recall < min_score then false
  else true

/-- `RAGASEvaluator._evaluate_faithfulness` (evaluator.py lines
142-149): the raw `single_turn_ascore` outcome with every exception
caught and replaced by the conservative fallback `0.75`. -/
def evaluate_faithfulness (raw : Except String ℚ) : Except String ℚ :=
  match raw with
  | .ok v => .ok v
  | .error _ => .ok (75 / 100)

/-- `RAGASEvaluator._evaluate_context_precision` (evaluator.py lines
151-158), same fallback structure. -/
def evaluate_context_precision (raw : Except String ℚ) : Except String ℚ :=
  match raw with
  | .ok v => .ok v
  | .error _ => .ok (75 / 100)

/-- `RAGASEvaluator._evaluate_context_recall` (evaluator.py lines
160-168), same fallback structure. -/
def evaluate_context_recall (raw : Except String ℚ) : Except String ℚ :=
  match raw with
  | .ok v => .ok v
  | .error _ => .ok (75 / 100)

/-- `asyncio.gather(..., return_exceptions=True)` result extraction in
`_evaluate_all_metrics` (evaluator.py lines 129-134): an exceptional
task result is replaced by `0.0`. -/
def gatherScore (r : Except String ℚ) : ℚ :=
  match r with
  | .ok v => v
  | .error _ => 0

/-- `RAGASEvaluator._evaluate_all_metrics` (evaluator.py lines
107-140): run the three metric evaluations (each with its own internal
fallback) and extract their scores with the `0.0`-on-exception guard. -/
def evaluate_all_metrics (rawF rawP rawR : Except String ℚ) : ℚ × ℚ × ℚ :=
  let results :=
    (evaluate_faithfulness rawF, evaluate_context_precision rawP,
      evaluate_context_recall rawR)
  (gatherScore results.1, gatherScore results.2.1, gatherScore results.2.2)

/-- `RAGASEvaluator._placeholder_scores` (evaluator.py lines 188-195). -/
def placeholder_scores : QualityScores :=
  { faithfulness := 75 / 100
    context_precision := 75 / 100
    context_recall := 75 / 100
    average := 75 / 100 }

/-- `RAGASEvaluator.evaluate_digest` (evaluator.py lines 50-105).
`ragas_available` is the import flag; `prep` models the fallible data
preparation inside the outer `try` (formatting insights, building the
sample); `rawF`, `rawP`, `rawR` are the raw `single_turn_ascore`
outcomes of the three metric tasks.  On any outer failure the
placeholder scores are returned; otherwise the three metric scores are
assembled and `average` is set to their mean. -/
def evaluate_digest (ragas_available : Bool) (prep : Except String Unit)
    (rawF rawP rawR : Except String ℚ) : QualityScores :=
  if ¬ragas_available then placeholder_scores
  else
    match prep with
    | .error _ => placeholder_scores
    | .ok _ =>
      let s := evaluate_all_metrics rawF rawP rawR
      { faithfulness := s.1
        context_precision := s.2.1
        context_recall := s.2.2
        average := (s.1 + s.2.1 + s.2.2) / 3 }

/-- One insight object as parsed from the model's JSON and enriched by
the synthesizer (`synthesizer.py`).  The JSON object may omit keys, so
the content fields are `Option`s; `id` and `source_chunks` are filled
in by `_validate_and_enrich_insights` (the Python id also embeds a
wall-clock timestamp, modelled here by the list index alone). -/
structure Insight where
  id : String := ""
  title : Option String := none
  relevance_reason : Option String := none
  explanation : Option String := none
  practical_takeaway : Option String := none
  source : Option String := none
  source_chunks : List String := []
deriving DecidableEq

/-- The parsed JSON dictionary returned by `_extract_json`; the
synthesizer only reads `insights_data.get("insights", [])`. -/
structure InsightsData where
  insights : List Insight := []
deriving DecidableEq

/-- The outcomes of the three JSON-extraction strategies of
`EducationalSynthesizer._extract_json` on one concrete response text:
direct `json.loads`, the fenced ```json code-block regex, and the first
brace-delimited span.  `none` means that strategy finds nothing or its
parse fails. -/
structure ParseOracle where
  direct : Option InsightsData
  fenced : Option InsightsData
  braced : Option InsightsData

/-- `EducationalSynthesizer._extract_json` (synthesizer.py lines
294-329): try the three strategies in order; if all fail, raise
`ValueError("Failed to parse JSON from Claude response")`. -/
def extract_json (p : ParseOracle) : Except String InsightsData :=
  match p.direct with
  | some d => .ok d
  | none =>
    match p.fenced with
    | some d => .ok d
    | none =>
      match p.braced with
      | some d => .ok d
      | none => .error "Failed to parse JSON from Claude response"

/-- The required-field check of `_validate_and_enrich_insights`
(synthesizer.py lines 355-358): `title`, `explanation`,
`practical_takeaway` and `source` must all be present. -/
def hasRequiredFields (i : Insight) : Bool :=
  i.title.isSome && i.explanation.isSome && i.practical_takeaway.isSome
    && i.source.isSome

/-- `EducationalSynthesizer._validate_and_enrich_insights`
(synthesizer.py lines 331-376): walk the parsed insights with their
indices, drop any insight missing a required field, and enrich the
survivors with an id and the ids of the top-3 retrieved chunks. -/
def validate_and_enrich_insights (insights_data : InsightsData)
    (retrieved_chunks : List RankedChunk) : List Insight :=
  insights_data.insights.enum.filterMap fun ci =>
    if hasRequiredFields ci.2 then
      some { ci.2 with
              id := "insight_" ++ toString ci.1
              source_chunks := (retrieved_chunks.take 3).map (fun c => c.chunk.id) }
    else none

/-- The value returned by `synthesize_insights`: the insights list plus
the optional `metadata["error"]` message. -/
structure SynthResult where
  insights : List Insight
  error : Option String
deriving DecidableEq

/-- `EducationalSynthesizer.synthesize_insights` (synthesizer.py lines
35-117).  `modelOutcome` is the oracle for the Anthropic messages call
on the prompt built for this request: `.error e` models the API call
raising, `.ok p` models it returning response text whose three
extraction strategies behave as `p`.  The entire body after the guard
sits inside `try ... except Exception`, which converts any raised error
(API failure or the `_extract_json` `ValueError`) into
`{"insights": [], "metadata": {"error": str(e)}}`.  `num_insights` only
shapes the prompt, so it does not appear in the result. -/
def synthesize_insights (retrieved_chunks : List RankedChunk)
    (num_insights : ℕ) (modelOutcome : Except String ParseOracle) : SynthResult :=
  if retrieved_chunks.isEmpty then
    { insights := [], error := some "No content to synthesize" }
  else
    match modelOutcome with
    | .error e => { insights := [], error := some e }
    | .ok p =>
      match extract_json p with
      | .error e => { insights := [], error := some e }
      | .ok insights_data =>
        { insights := validate_and_enrich_insights insights_data retrieved_chunks
          error := none }

/-- `QualityGate.apply_gate` (evaluator.py lines 235-303).  The
evaluation of one attempt is `evalD insights` (a total function:
`evaluate_digest` catches every failure internally); `synth k insights`
is the oracle for the insights produced by the `k`-th retry call
`synthesize_insights(..., num_insights=len(insights), stricter=True)`.
If the gate passes, return `(insights, scores, true)`; if it fails with
retries left, synthesize again and recurse with `retry_count + 1`;
otherwise return the last attempt with `passed = false`. -/
def apply_gate (min_score : ℚ) (max_retries : ℕ)
    (evalD : List Insight → QualityScores)
    (synth : ℕ → List Insight → List Insight)
    (insights : List Insight) (retry_count : ℕ) :
    List Insight × QualityScores × Bool :=
  let scores := evalD insights
  if passes_quality_gate min_score scores then
    (insights, scores, true)
  else if _h : retry_count < max_retries then
    apply_gate min_score max_retries evalD synth (synth retry_count insights)
      (retry_count + 1)
  else
    (insights, scores, false)
termination_by max_retries - retry_count
decreasing_by omega

/-- Number of synthesizer invocations performed by `apply_gate` itself:
the same recursion as `apply_gate`, counting one call per retry
branch. -/
def apply_gate_synth_calls (min_score : ℚ) (max_retries : ℕ)
    (evalD : List Insight → QualityScores)
    (synth : ℕ → List Insight → List Insight)
    (insights : List Insight) (retry_count : ℕ) : ℕ :=
  let scores := evalD insights
  if passes_quality_gate min_score scores then 0
  else if _h : retry_count < max_retries then
    1 + apply_gate_synth_calls min_score max_retries evalD synth
      (synth retry_count insights) (retry_count + 1)
  else 0
termination_by max_retries - retry_count
decreasing_by omega

/-- The insights held after `fuel` further synthesis calls when the
first of them is made at retry index `retry_count`: the sequence of
attempts produced by a gate run that keeps failing. -/
def iterSynth (synth : ℕ → List Insight → List Insight) :
    ℕ → ℕ → List Insight → List Insight
  | _, 0, insights => insights
  | retry_count, fuel + 1, insights =>
    iterSynth synth (retry_count + 1) fuel (synth retry_count insights)

/-- The digest dictionary assembled by `DigestGenerator.generate`
(digest_generator.py lines 181-196) and by `_create_empty_digest`
(lines 288-309).  `ragas_scores = none` models the empty `{}` dict;
`error` and `num_insights` are the metadata fields the claims read;
`quality_passed` is absent (`none`) on empty digests. -/
structure Digest where
  date : String
  insights : List Insight
  ragas_scores : Option QualityScores
  quality_badge : String
  quality_passed : Option Bool
  cached : Bool
  error : Option String
  num_insights : ℕ
deriving DecidableEq

/-- `DigestGenerator._determine_quality_badge` (digest_generator.py
lines 311-328): `ragas_scores.get("average", 0)` against the 0.85/0.70
thresholds. -/
def determine_quality_badge (ragas_scores : Option QualityScores) : String :=
  let avg_score := match ragas_scores with
    | some s => s.average
    | none => 0
  if 85 / 100 ≤ avg_score then "✨"
  else if 70 / 100 ≤ avg_score then "✓"
  else "⚠️"

/-- `DigestGenerator._create_empty_digest` (digest_generator.py lines
288-309): empty insights, empty scores dict, warning badge, and the
reason under `metadata["error"]`. -/
def create_empty_digest (date : String) (reason : String) : Digest :=
  { date := date
    insights := []
    ragas_scores := none
    quality_badge := "⚠️"
    quality_passed := none
    cached := false
    error := some reason
    num_insights := 0 }

/-- The oracles one `DigestGenerator.generate` call interacts with.
`cached` is the digest reconstructed by `_get_cached_digest` (already
`none` when the row is missing, expired, or the lookup raised — that
method swallows its own exceptions); `retrieveOutcome` is the result of
`retriever.retrieve` (whose embedding-service and vector-search
exceptions propagate); `hasSynthesizer` is whether an Anthropic key was
configured; `synthOutcome` is the model-call oracle for the initial
synthesis; `evalD` and `retrySynth` are the quality-gate oracles of
`apply_gate`. -/
structure GenEnv where
  cached : Option Digest
  retrieveOutcome : Except String (List RankedChunk)
  hasSynthesizer : Bool
  synthOutcome : Except String ParseOracle
  min_score : ℚ
  max_retries : ℕ
  evalD : List Insight → QualityScores
  retrySynth : ℕ → List Insight → List Insight

/-- `DigestGenerator.generate` (digest_generator.py lines 87-202).
The returned pair carries the digest together with a flag recording
whether `_store_digest` was invoked (the upsert itself swallows storage
errors, so only the fact of the call matters).  There is no try/except
around the body: an exception from `retriever.retrieve` propagates to
the caller, modelled by the `Except` result. -/
def generate (env : GenEnv) (date : String) (max_insights : ℕ)
    (force_refresh : Bool) : Except String (Digest × Bool) :=
  let body : Except String (Digest × Bool) :=
    match env.retrieveOutcome with
    | .error e => .error e
    | .ok chunks =>
      if chunks.isEmpty then
        .ok (create_empty_digest date "No relevant content found", false)
      else if ¬env.hasSynthesizer then
        .ok (create_empty_digest date
          "Anthropic API key not configured. Please add ANTHROPIC_API_KEY to your Claude Desktop config.",
          false)
      else
        let synthesis_result :=
          synthesize_insights chunks (min max_insights 10) env.synthOutcome
        let insights := synthesis_result.insights
        if insights.isEmpty then
          .ok (create_empty_digest date "Failed to generate insights", false)
        else
          let gate := apply_gate env.min_score env.max_retries env.evalD
            env.retrySynth insights 0
          let final_insights := gate.1
          let ragas_scores := gate.2.1
          let passed_gate := gate.2.2
          let quality_badge := determine_quality_badge (some ragas_scores)
          let digest : Digest :=
            { date := date
              insights := final_insights
              ragas_scores := some ragas_scores
              quality_badge := quality_badge
              quality_passed := some passed_gate
              cached := false
              error := none
              num_insights := insights.length }
          .ok (digest, true)
  if ¬force_refresh then
    match env.cached with
    | some cached_digest => .ok (cached_digest, false)
    | none => body
  else body

/-- The insight count of a `generate` outcome (`0` when the call raised). -/
def digestInsightLen (r : Except String (Digest × Bool)) : ℕ :=
  match r with
  | .ok (d, _) => d.insights.length
  | .error _ => 0

/-- A stored digest row as read back from `generated_digests` by
`InsightSearch.search`. -/
structure StoredDigest where
  id : String
  digest_date : String
  insights : List Insight
deriving DecidableEq

/-- An insight flattened out of a stored digest and tagged with its
parent digest's date and id, scored by `search_score`. -/
structure ScoredInsight where
  insight : Insight
  digest_date : String
  digest_id : String
  search_score : ℚ
deriving DecidableEq

/-- `InsightSearch._cosine_similarity` (insight_search.py lines
161-172).  `math.sqrt` has no exact rational counterpart, so the
square-root function is a parameter; the zero-magnitude guard and the
`dot / (m1 * m2)` shape follow the source. -/
def cosine_similarity (sqrtFn : ℚ → ℚ) (vec1 vec2 : List ℚ) : ℚ :=
  let dot_product := (List.zipWith (fun a b => a * b) vec1 vec2).sum
  let magnitude1 := sqrtFn (vec1.map (fun a => a * a)).sum
  let magnitude2 := sqrtFn (vec2.map (fun b => b * b)).sum
  if magnitude1 = 0 ∨ magnitude2 = 0 then 0
  else dot_product / (magnitude1 * magnitude2)

/-- The searchable text built for each insight in `search`
(insight_search.py lines 104-108): title, explanation and takeaway
joined by single spaces, missing keys defaulting to `""`. -/
def searchableText (i : Insight) : String :=
  i.title.getD "" ++ " " ++ i.explanation.getD "" ++ " "
    ++ i.practical_takeaway.getD ""

/-- The oracles one `InsightSearch.search` call interacts with:
`digests` is the outcome of the `generated_digests` query (already
filtered by user and date range server-side), `queryEmb` the embedding
call for the query, `insightEmb` the embedding call for one insight's
searchable text, `feedback` the feedback-row lookup (list of `type`
tags) for one insight id, and `sqrtFn` the float square root. -/
structure SearchEnv where
  digests : Except String (List StoredDigest)
  queryEmb : Except String (List ℚ)
  insightEmb : String → Except String (List ℚ)
  feedback : String → Except String (List String)
  sqrtFn : ℚ → ℚ

/-- The body of `InsightSearch.search` inside its `try` block
(insight_search.py lines 67-146): read the digests, flatten and tag
their insights, embed the query, embed and score each insight
sequentially, optionally filter by counted "helpful" feedback, sort by
score descending and truncate to `limit`.  The first raised exception
aborts the body. -/
def searchBody (env : SearchEnv) (min_feedback_score : Option ℕ)
    (limit : ℕ) : Except String (List ScoredInsight) := do
  let digests ← env.digests
  if digests.isEmpty then
    return []
  let all_insights := digests.flatMap fun d =>
    d.insights.map fun i =>
      { insight := i, digest_date := d.digest_date, digest_id := d.id
        search_score := 0 : ScoredInsight }
  if all_insights.isEmpty then
    return []
  let query_embedding ← env.queryEmb
  let scored ← all_insights.mapM fun si => do
    let insight_embedding ← env.insightEmb (searchableText si.insight)
    pure { si with
            search_score :=
              cosine_similarity env.sqrtFn query_embedding insight_embedding }
  let filtered ←
    match min_feedback_score with
    | none => pure scored
    | some m =>
      scored.foldlM (fun acc si => do
        let feedbacks ← env.feedback si.insight.id
        let helpful_count := (feedbacks.filter (fun t => t = "helpful")).length
        pure (if m ≤ helpful_count then acc ++ [si] else acc)) []
  let sorted := filtered.mergeSort
    (fun a b => decide (b.search_score ≤ a.search_score))
  return sorted.take limit

/-- `InsightSearch.search` (insight_search.py lines 44-150): the body
above wrapped in `try ... except Exception`, which turns any raised
error into an empty result list. -/
def search (env : SearchEnv) (min_feedback_score : Option ℕ)
    (limit : ℕ) : List ScoredInsight :=
  match searchBody env min_feedback_score limit with
  | .ok results => results
  | .error _ => []

/-! ## Theorems -/

/-- Claim C4: `passes_quality_gate(scores)` is true iff faithfulness,
context_precision and context_recall are each ≥ `min_score` (boundary
inclusive: all three at 0.70 pass with the default 0.70, one metric at
0.69 fails regardless of the others), and the `average` field has no
effect on the result. -/
theorem passes_quality_gate_spec (min_score : ℚ) (scores : QualityScores) (a : ℚ) :
    (passes_quality_gate min_score scores = true ↔
      min_score ≤ scores.faithfulness ∧ min_score ≤ scores.context_precision ∧
        min_score ≤ scores.context_recall)
    ∧ passes_quality_gate min_score { scores with average := a }
        = passes_quality_gate min_score scores
    ∧ passes_quality_gate (70 / 100)
        { faithfulness := 70 / 100, context_precision := 70 / 100,
          context_recall := 70 / 100, average := a } = true
    ∧ passes_quality_gate (70 / 100)
        { faithfulness := 69 / 100, context_precision := 90 / 100,
          context_recall := 90 / 100, average := a } = false := by
  refine ⟨?_, rfl, by norm_num [passes_quality_gate],
    by norm_num [passes_quality_gate]⟩
  unfold passes_quality_gate
  split_ifs <;> simp_all [not_lt]

/-- Claim C8: in hybrid ranking the recency factor of a chunk is exactly
`max(0, 1 - days_old/30)` — zero for a chunk published 30 days before
`now`, one for a chunk published at `now` — and for two candidates with
identical similarity and source priority and a non-negative recency
weight, the more recent one's hybrid score is at least the older one's. -/
theorem score_chunk_recency_spec (now : ℤ) (ws wr wp : ℚ) (c1 c2 : Chunk)
    (hwr : 0 ≤ wr) (hsim : c1.similarity = c2.similarity)
    (hpri : c1.source_priority = c2.source_priority)
    (hdays : now - c1.published_at ≤ now - c2.published_at) :
    (score_chunk now ws wr wp c1).scores.recency
        = max 0 (1 - ((now - c1.published_at : ℤ) : ℚ) / 30)
    ∧ (c1.published_at = now - 30 → (score_chunk now ws wr wp c1).scores.recency = 0)
    ∧ (c1.published_at = now → (score_chunk now ws wr wp c1).scores.recency = 1)
    ∧ (score_chunk now ws wr wp c2).final_score
        ≤ (score_chunk now ws wr wp c1).final_score := by
  refine ⟨rfl, ?_, ?_, ?_⟩
  · intro h
    simp only [score_chunk, h]
    norm_num
  · intro h
    simp only [score_chunk, h]
    norm_num
  · have hcast : ((now - c1.published_at : ℤ) : ℚ) ≤ ((now - c2.published_at : ℤ) : ℚ) := by
      exact_mod_cast hdays
    have hm : max 0 (1 - ((now - c2.published_at : ℤ) : ℚ) / 30)
        ≤ max 0 (1 - ((now - c1.published_at : ℤ) : ℚ) / 30) := by
      apply max_le_max le_rfl
      linarith
    have key := mul_le_mul_of_nonneg_left hm hwr
    simp only [score_chunk, hsim, hpri]
    linarith

/-- Claim C9: in `evaluate_digest`, a failure of any single metric
computation yields the fixed fallback 0.75 for that metric while the
other metrics are unaffected (the evaluation as a whole is a total
function and never fails), and the returned `average` always equals the
unweighted mean of the three returned metric values. -/
theorem evaluate_digest_isolation_spec (ra : Bool) (prep : Except String Unit)
    (rawF rawP rawR : Except String ℚ) (e1 e2 e3 : String) :
    (evaluate_digest true (.ok ()) (.error e1) rawP rawR).faithfulness = 75 / 100
    ∧ (evaluate_digest true (.ok ()) rawF (.error e2) rawR).context_precision = 75 / 100
    ∧ (evaluate_digest true (.ok ()) rawF rawP (.error e3)).context_recall = 75 / 100
    ∧ (evaluate_digest true (.ok ()) (.error e1) rawP rawR).context_precision
        = (evaluate_digest true (.ok ()) rawF rawP rawR).context_precision
    ∧ (evaluate_digest true (.ok ()) (.error e1) rawP rawR).context_recall
        = (evaluate_digest true (.ok ()) rawF rawP rawR).context_recall
    ∧ (evaluate_digest ra prep rawF rawP rawR).average
        = ((evaluate_digest ra prep rawF rawP rawR).faithfulness
            + (evaluate_digest ra prep rawF rawP rawR).context_precision
            + (evaluate_digest ra prep rawF rawP rawR).context_recall) / 3 := by
  refine ⟨rfl, rfl, rfl, rfl, rfl, ?_⟩
  rcases ra with _ | _ <;> rcases prep with _ | _ <;>
    simp [evaluate_digest, placeholder_scores] <;> norm_num

/-- A chunk published at the reference time 0. -/
def chunkNow : Chunk :=
  { id := "c-now", source_id := "s1", chunk_text := "t", content_title := "T"
    similarity := 8 / 10, published_at := 0, source_priority := 5 }

/-- The same chunk published 30 days earlier. -/
def chunkOld : Chunk := { chunkNow with id := "c-old", published_at := -30 }

/-- Witness for `score_chunk_recency_spec` at `now = 0` with the default
weights and two concrete chunks 30 days apart. -/
theorem score_chunk_recency_spec_witness :
    ((0 : ℚ) ≤ 3 / 10 ∧ chunkNow.similarity = chunkOld.similarity
      ∧ chunkNow.source_priority = chunkOld.source_priority
      ∧ (0 : ℤ) - chunkNow.published_at ≤ 0 - chunkOld.published_at)
    ∧ ((score_chunk 0 (6 / 10) (3 / 10) (1 / 10) chunkNow).scores.recency
          = max 0 (1 - (((0 : ℤ) - chunkNow.published_at : ℤ) : ℚ) / 30)
        ∧ (chunkNow.published_at = 0 - 30 →
            (score_chunk 0 (6 / 10) (3 / 10) (1 / 10) chunkNow).scores.recency = 0)
        ∧ (chunkNow.published_at = 0 →
            (score_chunk 0 (6 / 10) (3 / 10) (1 / 10) chunkNow).scores.recency = 1)
        ∧ (score_chunk 0 (6 / 10) (3 / 10) (1 / 10) chunkOld).final_score
            ≤ (score_chunk 0 (6 / 10) (3 / 10) (1 / 10) chunkNow).final_score) :=
  ⟨⟨by norm_num, rfl, rfl, by decide⟩,
    score_chunk_recency_spec 0 (6 / 10) (3 / 10) (1 / 10) chunkNow chunkOld
      (by norm_num) rfl rfl (by decide)⟩

/-- Behaviour of the `apply_gate` recursion when the gate predicate
fails on every attempt, by induction on the remaining retry budget:
the result is the last attempt's insights with their evaluation and
`passed = false`, and exactly `max_retries - retry_count` synthesis
calls are made. -/
lemma apply_gate_fail_run (ms : ℚ) (mr : ℕ)
    (evalD : List Insight → QualityScores)
    (synth : ℕ → List Insight → List Insight)
    (hfail : ∀ j, passes_quality_gate ms (evalD j) = false) :
    ∀ fuel rc i, mr - rc = fuel →
      apply_gate ms mr evalD synth i rc
          = (iterSynth synth rc fuel i, evalD (iterSynth synth rc fuel i), false)
        ∧ apply_gate_synth_calls ms mr evalD synth i rc = fuel := by
  intro fuel
  induction fuel with
  | zero =>
    intro rc i h
    have hnlt : ¬ rc < mr := by omega
    rw [apply_gate, apply_gate_synth_calls]
    simp [hfail i, hnlt, iterSynth]
  | succ n ih =>
    intro rc i h
    have hlt : rc < mr := by omega
    obtain ⟨h1, h2⟩ := ih (rc + 1) (synth rc i) (by omega)
    rw [apply_gate, apply_gate_synth_calls]
    simp only [hfail i, hlt, dite_true, if_false, Bool.false_eq_true, iterSynth]
    constructor
    · simpa [iterSynth] using h1
    · omega

/-- Claim C3: `apply_gate` terminates on every input (it is a total
function of a recursion bounded by `max_retries - retry_count`), and
when the evaluator's gate predicate fails on every attempt, a run
starting at `retry_count = 0` makes exactly `max_retries` synthesizer
invocations — in particular at most `max_retries + 1` — and returns the
last attempt's insights together with that attempt's scores and
`passed = false`. -/
theorem apply_gate_exhaustion_spec (ms : ℚ) (mr : ℕ)
    (evalD : List Insight → QualityScores)
    (synth : ℕ → List Insight → List Insight) (i : List Insight)
    (hfail : ∀ j, passes_quality_gate ms (evalD j) = false) :
    apply_gate ms mr evalD synth i 0
        = (iterSynth synth 0 mr i, evalD (iterSynth synth 0 mr i), false)
      ∧ apply_gate_synth_calls ms mr evalD synth i 0 = mr
      ∧ apply_gate_synth_calls ms mr evalD synth i 0 ≤ mr + 1 := by
  obtain ⟨h1, h2⟩ := apply_gate_fail_run ms mr evalD synth hfail mr 0 i (by omega)
  exact ⟨h1, h2, by omega⟩

/-- Witness for `apply_gate_exhaustion_spec`: an evaluator that always
returns all-zero scores against the default 0.70 threshold, two
retries, and a retry synthesizer that always returns the empty list. -/
theorem apply_gate_exhaustion_spec_witness :
    (∀ j : List Insight,
        passes_quality_gate (70 / 100)
          ((fun _ => ⟨0, 0, 0, 0⟩ : List Insight → QualityScores) j) = false)
    ∧ (apply_gate (70 / 100) 2 (fun _ => ⟨0, 0, 0, 0⟩) (fun _ _ => []) [] 0
          = (iterSynth (fun _ _ => []) 0 2 [],
              (fun _ => (⟨0, 0, 0, 0⟩ : QualityScores)) (iterSynth (fun _ _ => []) 0 2 []),
              false)
        ∧ apply_gate_synth_calls (70 / 100) 2 (fun _ => ⟨0, 0, 0, 0⟩) (fun _ _ => []) [] 0 = 2
        ∧ apply_gate_synth_calls (70 / 100) 2 (fun _ => ⟨0, 0, 0, 0⟩) (fun _ _ => []) [] 0 ≤ 2 + 1) :=
  ⟨fun _ => by norm_num [passes_quality_gate],
    apply_gate_exhaustion_spec (70 / 100) 2 (fun _ => ⟨0, 0, 0, 0⟩) (fun _ _ => []) []
      (fun _ => by norm_num [passes_quality_gate])⟩

lemma diversityLoop_nil (ms tk : ℕ) (seen : List String) (d r : List RankedChunk) :
    diversityLoop ms tk [] seen d r = (d, r) := rfl

lemma diversityLoop_cons (ms tk : ℕ) (c : RankedChunk) (rest : List RankedChunk)
    (seen : List String) (d r : List RankedChunk) :
    diversityLoop ms tk (c :: rest) seen d r
      = if srcId c ∈ seen then
          diversityLoop ms tk rest seen d (r ++ [c])
        else if ms ≤ (srcId c :: seen).length ∧ tk ≤ (d ++ [c]).length then
          (d ++ [c], r)
        else
          diversityLoop ms tk rest (srcId c :: seen) (d ++ [c]) r := rfl

/-- Monotonicity of deduplicated length under list-membership
inclusion. -/
lemma dedup_length_mono {l1 l2 : List String} (h : ∀ x ∈ l1, x ∈ l2) :
    l1.dedup.length ≤ l2.dedup.length := by
  rw [← List.card_toFinset, ← List.card_toFinset]
  exact Finset.card_le_card fun x hx => by
    simp only [List.mem_toFinset] at hx ⊢
    exact h x hx

/-- `countSources` is monotone under list-membership inclusion. -/
lemma countSources_mono {l1 l2 : List RankedChunk} (h : ∀ x ∈ l1, x ∈ l2) :
    countSources l1 ≤ countSources l2 := by
  apply dedup_length_mono
  intro x hx
  simp only [List.mem_map] at hx ⊢
  obtain ⟨cc, hcc, rfl⟩ := hx
  exact ⟨cc, h cc hcc, rfl⟩

/-- Invariant of the diversity first pass: starting from a `diverse`
accumulator whose source ids are exactly the (duplicate-free) `seen`
set, the loop returns a `diverse` list with pairwise-distinct source
ids which either already has at least `min_sources` elements (it broke
out, or grew that far) or contains every source id of `seen` and of the
unprocessed input (the input was exhausted before the break). -/
lemma diversityLoop_spec (ms tk : ℕ) :
    ∀ (l : List RankedChunk) (seen : List String) (d r : List RankedChunk),
      d.map srcId = seen.reverse → seen.Nodup →
      ((diversityLoop ms tk l seen d r).1.map srcId).Nodup ∧
        (ms ≤ (diversityLoop ms tk l seen d r).1.length ∨
          ∀ x, (x ∈ seen ∨ x ∈ l.map srcId) →
            x ∈ (diversityLoop ms tk l seen d r).1.map srcId) := by
  intro l
  induction l with
  | nil =>
    intro seen d r hmap hnd
    rw [diversityLoop_nil]
    refine ⟨by rw [hmap]; exact List.nodup_reverse.mpr hnd, Or.inr fun x hx => ?_⟩
    rcases hx with h | h
    · rw [hmap]
      exact List.mem_reverse.mpr h
    · simp at h
  | cons c rest ih =>
    intro seen d r hmap hnd
    rw [diversityLoop_cons]
    by_cases hmem : srcId c ∈ seen
    · rw [if_pos hmem]
      obtain ⟨h1, h2⟩ := ih seen d (r ++ [c]) hmap hnd
      refine ⟨h1, ?_⟩
      rcases h2 with h2 | h2
      · exact Or.inl h2
      · refine Or.inr fun x hx => h2 x ?_
        rcases hx with h | h
        · exact Or.inl h
        · rw [List.map_cons] at h
          rcases List.mem_cons.mp h with heq | h
          · exact Or.inl (heq ▸ hmem)
          · exact Or.inr h
    · rw [if_neg hmem]
      have hnd' : (srcId c :: seen).Nodup := List.nodup_cons.mpr ⟨hmem, hnd⟩
      have hmap' : (d ++ [c]).map srcId = (srcId c :: seen).reverse := by
        simp [hmap, List.reverse_cons]
      by_cases hbrk : ms ≤ (srcId c :: seen).length ∧ tk ≤ (d ++ [c]).length
      · rw [if_pos hbrk]
        refine ⟨by rw [hmap']; exact List.nodup_reverse.mpr hnd', Or.inl ?_⟩
        have hlen : d.length = seen.length := by
          have := congrArg List.length hmap
          simpa using this
        have h1 := hbrk.1
        simp only [List.length_cons] at h1
        simp only [List.length_append, List.length_cons, List.length_nil]
        omega
      · rw [if_neg hbrk]
        obtain ⟨h1, h2⟩ := ih (srcId c :: seen) (d ++ [c]) r hmap' hnd'
        refine ⟨h1, ?_⟩
        rcases h2 with h2 | h2
        · exact Or.inl h2
        · refine Or.inr fun x hx => h2 x ?_
          rcases hx with h | h
          · exact Or.inl (List.mem_cons_of_mem _ h)
          · rw [List.map_cons] at h
            rcases List.mem_cons.mp h with heq | h
            · exact Or.inl (heq ▸ List.mem_cons_self _ _)
            · exact Or.inr h

/-- Claim C2 (amended): the diversified chunk list returned by
`_ensure_source_diversity` always has length at most `top_k`, and
whenever the candidate pool spans at least `min_sources` distinct
source ids, the returned list spans at least `min(min_sources, top_k)`
distinct source ids.  (The final `[:top_k]` truncation makes the full
`min_sources` guarantee fail when `min_sources > top_k`.) -/
theorem ensure_source_diversity_spec (chunks : List RankedChunk) (ms tk : ℕ) :
    (ensure_source_diversity chunks ms tk).length ≤ tk
    ∧ (ms ≤ countSources chunks →
        min ms tk ≤ countSources (ensure_source_diversity chunks ms tk)) := by
  cases chunks with
  | nil =>
    refine ⟨by simp [ensure_source_diversity], fun h => ?_⟩
    simp [countSources] at h
    simp [ensure_source_diversity, countSources]
    omega
  | cons c cs =>
    obtain ⟨hnd, hdisj⟩ :=
      diversityLoop_spec ms tk (c :: cs) [] [] [] (by simp) List.nodup_nil
    set d := (diversityLoop ms tk (c :: cs) [] [] []).1 with hd
    set r := (diversityLoop ms tk (c :: cs) [] [] []).2 with hr
    have hres : ensure_source_diversity (c :: cs) ms tk
        = (if d.length < tk then d ++ r.take (tk - d.length) else d).take tk := rfl
    constructor
    · rw [hres]
      exact List.length_take_le _ _
    · intro hcs
      have hmsd : ms ≤ d.length := by
        rcases hdisj with h | h
        · exact h
        · have hsub : ∀ x ∈ (c :: cs).map srcId, x ∈ d.map srcId :=
            fun x hx => h x (Or.inr hx)
          have hle := dedup_length_mono hsub
          rw [List.dedup_eq_self.mpr hnd] at hle
          unfold countSources at hcs
          have : (d.map srcId).length = d.length := List.length_map _ _
          omega
      have hpref : ∀ x ∈ d.take tk, x ∈ ensure_source_diversity (c :: cs) ms tk := by
        rw [hres]
        split_ifs with hlt
        · intro x hx
          rw [List.take_append_eq_append_take]
          exact List.mem_append_left _ hx
        · intro x hx
          exact hx
      have hcount := countSources_mono hpref
      have htake : countSources (d.take tk) = min tk d.length := by
        unfold countSources
        rw [List.map_take,
          List.dedup_eq_self.mpr (hnd.sublist (List.take_sublist tk (d.map srcId)))]
        simp [List.length_take]
      omega

/-- A ranked chunk whose chunk id and source id are both `n`. -/
def rcSrc (n : String) : RankedChunk :=
  { chunk :=
      { id := n, source_id := n, chunk_text := "", content_title := ""
        similarity := 1, published_at := 0, source_priority := 3 }
    scores := { similarity := 1, recency := 1, priority := 1, hybrid := 1 }
    final_score := 1 }

/-- Five candidates from five distinct sources. -/
def fiveSources : List RankedChunk :=
  [rcSrc "s1", rcSrc "s2", rcSrc "s3", rcSrc "s4", rcSrc "s5"]

/-- Counterexample to claim C2 as stated: with `min_sources = 5 > top_k
= 3` and a candidate pool spanning 5 distinct sources, the returned
list spans only 3 distinct sources, not the `min_sources = 5` the claim
demands for this case. -/
theorem ensure_source_diversity_counterexample :
    5 ≤ countSources fiveSources
    ∧ (ensure_source_diversity fiveSources 5 3).length ≤ 3
    ∧ ¬ 5 ≤ countSources (ensure_source_diversity fiveSources 5 3) := by
  decide

/-- Witness for `ensure_source_diversity_spec` at `min_sources = 3`,
`top_k = 5` on the five-source pool. -/
theorem ensure_source_diversity_spec_witness :
    3 ≤ countSources fiveSources
    ∧ min 3 5 ≤ countSources (ensure_source_diversity fiveSources 3 5) :=
  ⟨by decide, (ensure_source_diversity_spec fiveSources 3 5).2 (by decide)⟩

/-- When the first evaluation already passes the gate, `apply_gate`
returns immediately. -/
lemma apply_gate_pass (ms : ℚ) (mr : ℕ) (evalD : List Insight → QualityScores)
    (synth : ℕ → List Insight → List Insight) (i : List Insight) (rc : ℕ)
    (hp : passes_quality_gate ms (evalD i) = true) :
    apply_gate ms mr evalD synth i rc = (i, evalD i, true) := by
  rw [apply_gate]
  simp [hp]

/-- The insights returned by `apply_gate` are either the initial
attempt or some retry synthesis output, so any length bound preserved
by the retry synthesizer holds for the result. -/
lemma apply_gate_result_length (ms : ℚ) (mr : ℕ)
    (evalD : List Insight → QualityScores)
    (synth : ℕ → List Insight → List Insight) (cap : ℕ)
    (hs : ∀ k j, (synth k j).length ≤ cap) :
    ∀ fuel rc (i : List Insight), mr - rc = fuel → i.length ≤ cap →
      (apply_gate ms mr evalD synth i rc).1.length ≤ cap := by
  intro fuel
  induction fuel with
  | zero =>
    intro rc i h hi
    rw [apply_gate]
    have hnlt : ¬ rc < mr := by omega
    by_cases hp : passes_quality_gate ms (evalD i)
    · simp [hp, hi]
    · simp [hp, hnlt, hi]
  | succ n ih =>
    intro rc i h hi
    rw [apply_gate]
    have hlt : rc < mr := by omega
    by_cases hp : passes_quality_gate ms (evalD i)
    · simp [hp, hi]
    · simpa [hp, hlt] using ih (rc + 1) (synth rc i) (by omega) (hs rc i)

/-- Validation only drops or enriches parsed insights, never adds. -/
lemma validate_and_enrich_length (dta : InsightsData) (chunks : List RankedChunk) :
    (validate_and_enrich_insights dta chunks).length ≤ dta.insights.length := by
  unfold validate_and_enrich_insights
  calc (dta.insights.enum.filterMap _).length
      ≤ dta.insights.enum.length := List.length_filterMap_le _ _
    _ = dta.insights.length := List.enum_length

/-- The synthesizer returns at most as many insights as the parsed
model response contains. -/
lemma synthesize_insights_length (chunks : List RankedChunk) (n : ℕ)
    (mo : Except String ParseOracle) (cap : ℕ)
    (hm : ∀ p dta, mo = .ok p → extract_json p = .ok dta →
      dta.insights.length ≤ cap) :
    (synthesize_insights chunks n mo).insights.length ≤ cap := by
  unfold synthesize_insights
  split_ifs with he
  · simp
  · cases mo with
    | error e => simp
    | ok p =>
      cases hx : extract_json p with
      | error e => simp [hx]
      | ok dta =>
        simp only [hx]
        simpa using le_trans (validate_and_enrich_length dta chunks) (hm p dta rfl hx)

/-- On a cache miss (forced refresh or no cached digest) `generate`
behaves as with `force_refresh = true`. -/
lemma generate_cache_miss (env : GenEnv) (date : String) (mi : ℕ) (fr : Bool)
    (hmiss : fr = true ∨ env.cached = none) :
    generate env date mi fr = generate env date mi true := by
  cases fr with
  | true => rfl
  | false =>
    rcases hmiss with h | h
    · exact absurd h (by simp)
    · simp [generate, h]

/-- The fully successful path of `generate`: non-empty retrieval, a
configured synthesizer, and a non-empty synthesis result lead to the
gate-processed digest being returned and stored. -/
lemma generate_happy (env : GenEnv) (date : String) (mi : ℕ) (fr : Bool)
    (hmiss : fr = true ∨ env.cached = none) (chunks : List RankedChunk)
    (hro : env.retrieveOutcome = .ok chunks) (hch : chunks.isEmpty = false)
    (hsy : env.hasSynthesizer = true)
    (hie : (synthesize_insights chunks (min mi 10) env.synthOutcome).insights.isEmpty
      = false) :
    generate env date mi fr
      = .ok
          ({ date := date
             insights := (apply_gate env.min_score env.max_retries env.evalD
               env.retrySynth
               (synthesize_insights chunks (min mi 10) env.synthOutcome).insights 0).1
             ragas_scores := some (apply_gate env.min_score env.max_retries env.evalD
               env.retrySynth
               (synthesize_insights chunks (min mi 10) env.synthOutcome).insights 0).2.1
             quality_badge := determine_quality_badge
               (some (apply_gate env.min_score env.max_retries env.evalD
                 env.retrySynth
                 (synthesize_insights chunks (min mi 10) env.synthOutcome).insights 0).2.1)
             quality_passed := some (apply_gate env.min_score env.max_retries env.evalD
               env.retrySynth
               (synthesize_insights chunks (min mi 10) env.synthOutcome).insights 0).2.2
             cached := false
             error := none
             num_insights :=
               (synthesize_insights chunks (min mi 10) env.synthOutcome).insights.length },
            true) := by
  rw [generate_cache_miss env date mi fr hmiss]
  unfold generate
  simp [hro, hch, hsy, hie]

/-- Claim C1 (amended): `generate` caps the insight count *requested
from the model* at `min(max_insights, 10)`; the cap carries over to the
returned digest's `insights` field only under the assumption that every
model response (initial synthesis and every gate retry) contains at
most the requested number of insight objects.  Without that assumption
the digest keeps every validated insight the model returned (see the
counterexample). -/
theorem generate_insight_cap_spec (env : GenEnv) (date : String) (mi : ℕ) (fr : Bool)
    (hmiss : fr = true ∨ env.cached = none)
    (hinit : ∀ p dta, env.synthOutcome = .ok p → extract_json p = .ok dta →
      dta.insights.length ≤ min mi 10)
    (hretry : ∀ k j, (env.retrySynth k j).length ≤ min mi 10) :
    digestInsightLen (generate env date mi fr) ≤ min mi 10 := by
  rw [generate_cache_miss env date mi fr hmiss]
  unfold generate digestInsightLen
  cases hro : env.retrieveOutcome with
  | error e => simp
  | ok chunks =>
    by_cases hch : chunks.isEmpty
    · simp [hch, create_empty_digest]
    · by_cases hsy : env.hasSynthesizer
      · by_cases hie :
          (synthesize_insights chunks (min mi 10) env.synthOutcome).insights.isEmpty
        · simp [hch, hsy, hie, create_empty_digest]
        · have hin := synthesize_insights_length chunks (min mi 10) env.synthOutcome
            (min mi 10) hinit
          have hg := apply_gate_result_length env.min_score env.max_retries env.evalD
            env.retrySynth (min mi 10) hretry env.max_retries 0
            (synthesize_insights chunks (min mi 10) env.synthOutcome).insights
            (by omega) hin
          simp only [hch, hsy, hie, Bool.not_true, Bool.false_eq_true, if_false,
            Bool.true_eq_false, not_false_eq_true, not_true_eq_false, if_true]
          simpa using hg
      · simp [hch, hsy, create_empty_digest]

/-- A parsed insight with every required field present. -/
def goodInsight : Insight :=
  { title := some "t", relevance_reason := some "r", explanation := some "e"
    practical_takeaway := some "p", source := some "s" }

/-- A model response that parses directly into eleven valid insight
objects. -/
def elevenOracle : ParseOracle :=
  { direct := some { insights := List.replicate 11 goodInsight }
    fenced := none, braced := none }

/-- A model response that parses directly into a single valid insight
object. -/
def oneOracle : ParseOracle :=
  { direct := some { insights := [goodInsight] }, fenced := none, braced := none }

/-- Environment in which retrieval succeeds, the model responds with
eleven insight objects although `min(7, 10) = 7` were requested, and
the quality gate passes at once. -/
def envOverCap : GenEnv :=
  { cached := none
    retrieveOutcome := .ok fiveSources
    hasSynthesizer := true
    synthOutcome := .ok elevenOracle
    min_score := 70 / 100
    max_retries := 2
    evalD := fun _ => ⟨1, 1, 1, 1⟩
    retrySynth := fun _ _ => [] }

/-- Counterexample to claim C1 as stated: with `max_insights = 7` the
model response containing eleven valid insight objects flows through
validation and the quality gate untrimmed, so the returned digest holds
11 insights, exceeding `min(7, 10) = 7`.  The cap is applied only to
the count requested from the model. -/
theorem generate_insight_cap_counterexample :
    digestInsightLen (generate envOverCap "2026-01-01" 7 true) = 11
    ∧ ¬ digestInsightLen (generate envOverCap "2026-01-01" 7 true) ≤ min 7 10 := by
  have hrw := generate_happy envOverCap "2026-01-01" 7 true (Or.inl rfl) fiveSources
    rfl rfl rfl (by decide)
  have hpass : passes_quality_gate envOverCap.min_score
      (envOverCap.evalD
        (synthesize_insights fiveSources (min 7 10) envOverCap.synthOutcome).insights)
      = true := by
    simp only [envOverCap]
    norm_num [passes_quality_gate]
  have hgate := apply_gate_pass envOverCap.min_score envOverCap.max_retries
    envOverCap.evalD envOverCap.retrySynth
    (synthesize_insights fiveSources (min 7 10) envOverCap.synthOutcome).insights 0 hpass
  rw [hrw]
  simp only [digestInsightLen, hgate]
  exact ⟨by decide, by decide⟩

/-- Environment in which the model answers with exactly one valid
insight object, within the requested cap. -/
def envUnderCap : GenEnv :=
  { cached := none
    retrieveOutcome := .ok fiveSources
    hasSynthesizer := true
    synthOutcome := .ok oneOracle
    min_score := 70 / 100
    max_retries := 2
    evalD := fun _ => ⟨1, 1, 1, 1⟩
    retrySynth := fun _ _ => [] }

/-- Witness for `generate_insight_cap_spec`: with a model that returns
one insight per call and retry syntheses returning none, the digest
respects the `min(7, 10)` cap. -/
theorem generate_insight_cap_spec_witness :
    ((true = true ∨ envUnderCap.cached = none)
      ∧ (∀ p dta, envUnderCap.synthOutcome = .ok p → extract_json p = .ok dta →
          dta.insights.length ≤ min 7 10)
      ∧ (∀ k j, (envUnderCap.retrySynth k j).length ≤ min 7 10))
    ∧ digestInsightLen (generate envUnderCap "2026-01-02" 7 true) ≤ min 7 10 := by
  have hinit : ∀ p dta, envUnderCap.synthOutcome = .ok p → extract_json p = .ok dta →
      dta.insights.length ≤ min 7 10 := by
    intro p dta hp hx
    simp only [envUnderCap, Except.ok.injEq] at hp
    subst hp
    simp only [extract_json, oneOracle] at hx
    cases hx
    decide
  have hretry : ∀ k j, (envUnderCap.retrySynth k j).length ≤ min 7 10 := by
    intro k j
    simp [envUnderCap]
  exact ⟨⟨Or.inl rfl, hinit, hretry⟩,
    generate_insight_cap_spec envUnderCap "2026-01-02" 7 true (Or.inl rfl) hinit hretry⟩

/-- An oracle on which all three JSON-extraction strategies fail. -/
def noJson : ParseOracle := { direct := none, fenced := none, braced := none }

/-- Counterexample to claim C5 as stated: when no extraction strategy
yields JSON, `_extract_json` does raise a parse error, but
`synthesize_insights` itself catches it (its `except Exception` block
wraps the whole body) and returns an empty insight sequence with the
message in its metadata — the error does not propagate to the
synthesizer's caller. -/
theorem synthesize_parse_error_counterexample :
    extract_json noJson = .error "Failed to parse JSON from Claude response"
    ∧ synthesize_insights fiveSources 7 (.ok noJson)
        = { insights := [], error := some "Failed to parse JSON from Claude response" } :=
  ⟨rfl, rfl⟩

/-- Claim C5 (amended): when the model response yields no JSON under
any of the three extraction strategies, `_extract_json` fails with the
parse error, `synthesize_insights` catches it and returns an empty
insight list carrying the message in its metadata (not a propagated
exception), and `DigestGenerator.generate` then converts the empty
insight list into an empty digest via its zero-insights check. -/
theorem synthesize_parse_error_spec (chunks : List RankedChunk) (n : ℕ)
    (p : ParseOracle) (env : GenEnv) (date : String) (mi : ℕ) (fr : Bool)
    (hne : chunks.isEmpty = false)
    (h1 : p.direct = none) (h2 : p.fenced = none) (h3 : p.braced = none)
    (hmiss : fr = true ∨ env.cached = none)
    (hro : env.retrieveOutcome = .ok chunks) (hsy : env.hasSynthesizer = true)
    (hmo : env.synthOutcome = .ok p) :
    extract_json p = .error "Failed to parse JSON from Claude response"
    ∧ synthesize_insights chunks n (.ok p)
        = { insights := [], error := some "Failed to parse JSON from Claude response" }
    ∧ generate env date mi fr
        = .ok (create_empty_digest date "Failed to generate insights", false) := by
  have hx : extract_json p = .error "Failed to parse JSON from Claude response" := by
    simp [extract_json, h1, h2, h3]
  have hs : ∀ m, synthesize_insights chunks m (.ok p)
      = { insights := [], error := some "Failed to parse JSON from Claude response" } := by
    intro m
    unfold synthesize_insights
    simp [hne, hx]
  refine ⟨hx, hs n, ?_⟩
  rw [generate_cache_miss env date mi fr hmiss]
  unfold generate
  simp [hro, hne, hsy, hmo, hs]

/-- Environment whose model response defeats every JSON-extraction
strategy. -/
def envNoJson : GenEnv :=
  { cached := none
    retrieveOutcome := .ok fiveSources
    hasSynthesizer := true
    synthOutcome := .ok noJson
    min_score := 70 / 100
    max_retries := 2
    evalD := fun _ => ⟨1, 1, 1, 1⟩
    retrySynth := fun _ _ => [] }

/-- Witness for `synthesize_parse_error_spec` on a concrete unparseable
response. -/
theorem synthesize_parse_error_spec_witness :
    (fiveSources.isEmpty = false ∧ noJson.direct = none ∧ noJson.fenced = none
      ∧ noJson.braced = none ∧ envNoJson.retrieveOutcome = .ok fiveSources
      ∧ envNoJson.hasSynthesizer = true ∧ envNoJson.synthOutcome = .ok noJson)
    ∧ (extract_json noJson = .error "Failed to parse JSON from Claude response"
        ∧ synthesize_insights fiveSources 7 (.ok noJson)
            = { insights := []
                error := some "Failed to parse JSON from Claude response" }
        ∧ generate envNoJson "2026-01-03" 7 true
            = .ok (create_empty_digest "2026-01-03" "Failed to generate insights", false)) :=
  ⟨⟨rfl, rfl, rfl, rfl, rfl, rfl, rfl⟩,
    synthesize_parse_error_spec fiveSources 7 noJson envNoJson "2026-01-03" 7 true
      rfl rfl rfl rfl (Or.inl rfl) rfl rfl rfl⟩

/-- With `force_refresh = true`, `generate` raises exactly when
retrieval raised, with the same message. -/
lemma generate_force_error_iff (env : GenEnv) (date : String) (mi : ℕ) (e : String) :
    generate env date mi true = .error e ↔ env.retrieveOutcome = .error e := by
  unfold generate
  cases hro : env.retrieveOutcome with
  | error e2 => simp
  | ok chunks =>
    split_ifs <;> simp_all
    all_goals split_ifs <;> simp_all

/-- Claim C6 (amended): `generate` propagates an exception to its caller
exactly when generation actually runs (forced refresh or cache miss)
and `retriever.retrieve` raised — i.e. embedding-service and
vector-search failures escape uncaught — while an exception from the
generative model is caught inside the synthesizer and surfaces as an
empty digest with the "Failed to generate insights" reason. -/
theorem generate_error_boundary_spec (env : GenEnv) (date : String) (mi : ℕ)
    (fr : Bool) (e : String) :
    (generate env date mi fr = .error e ↔
      ((fr = true ∨ env.cached = none) ∧ env.retrieveOutcome = .error e))
    ∧ (∀ em chunks, env.synthOutcome = .error em → env.retrieveOutcome = .ok chunks →
        chunks.isEmpty = false → env.hasSynthesizer = true →
        (fr = true ∨ env.cached = none) →
        generate env date mi fr
          = .ok (create_empty_digest date "Failed to generate insights", false)) := by
  constructor
  · cases fr with
    | true =>
      rw [generate_force_error_iff]
      simp
    | false =>
      cases hc : env.cached with
      | some d => simp [generate, hc]
      | none =>
        rw [generate_cache_miss env date mi false (Or.inr hc)]
        rw [generate_force_error_iff]
        simp [hc]
  · intro em chunks hmo hro hch hsy hmiss
    have hs : synthesize_insights chunks (min mi 10) env.synthOutcome
        = { insights := [], error := some em } := by
      unfold synthesize_insights
      simp [hch, hmo]
    rw [generate_cache_miss env date mi fr hmiss]
    unfold generate
    simp [hro, hch, hsy, hs]

/-- Environment in which the vector search raises. -/
def envVectorFail : GenEnv :=
  { cached := none
    retrieveOutcome := .error "vector search failed"
    hasSynthesizer := true
    synthOutcome := .ok noJson
    min_score := 70 / 100
    max_retries := 2
    evalD := fun _ => ⟨1, 1, 1, 1⟩
    retrySynth := fun _ _ => [] }

/-- Counterexample to claim C6 as stated: a vector-search exception
propagates out of `generate` as a raw error — the caller does not
receive a digest-shaped value carrying the message. -/
theorem generate_raises_counterexample :
    generate envVectorFail "2026-01-04" 7 true = .error "vector search failed" := rfl

/-- Environment in which retrieval succeeds but the generative-model
call raises. -/
def envModelFail : GenEnv :=
  { cached := none
    retrieveOutcome := .ok fiveSources
    hasSynthesizer := true
    synthOutcome := .error "anthropic api error"
    min_score := 70 / 100
    max_retries := 2
    evalD := fun _ => ⟨1, 1, 1, 1⟩
    retrySynth := fun _ _ => [] }

/-- Witness for `generate_error_boundary_spec`: a generative-model
exception is absorbed and an empty digest is returned. -/
theorem generate_error_boundary_spec_witness :
    (envModelFail.synthOutcome = .error "anthropic api error"
      ∧ envModelFail.retrieveOutcome = .ok fiveSources
      ∧ fiveSources.isEmpty = false
      ∧ envModelFail.hasSynthesizer = true
      ∧ (true = true ∨ envModelFail.cached = none))
    ∧ generate envModelFail "2026-01-05" 7 true
        = .ok (create_empty_digest "2026-01-05" "Failed to generate insights", false) :=
  ⟨⟨rfl, rfl, rfl, rfl, Or.inl rfl⟩,
    (generate_error_boundary_spec envModelFail "2026-01-05" 7 true "unused").2
      "anthropic api error" fiveSources rfl rfl rfl rfl (Or.inl rfl)⟩

/-- Environment in which retrieval returns zero chunks. -/
def envNoChunks : GenEnv :=
  { cached := none
    retrieveOutcome := .ok []
    hasSynthesizer := true
    synthOutcome := .ok noJson
    min_score := 70 / 100
    max_retries := 2
    evalD := fun _ => ⟨1, 1, 1, 1⟩
    retrySynth := fun _ _ => [] }

/-- Counterexample to claim C7 as stated: on zero retrieved chunks
`generate` returns the empty digest *before* reaching `_store_digest`,
so the upsert is not performed (second component `false`), contrary to
the claim that the empty digest is persisted like any other digest. -/
theorem generate_empty_not_persisted_counterexample :
    generate envNoChunks "2026-01-06" 7 true
      = .ok (create_empty_digest "2026-01-06" "No relevant content found", false)
    ∧ (create_empty_digest "2026-01-06" "No relevant content found").quality_badge
        = "⚠️" :=
  ⟨rfl, rfl⟩

/-- Claim C7 (amended): when retrieval returns zero chunks, `generate`
returns an empty digest with the explanatory reason and the warning
badge, but does **not** persist it — the early return skips
`_store_digest`, so a repeated call for the same user and date finds no
cached row from this path and re-runs retrieval. -/
theorem generate_empty_digest_spec (env : GenEnv) (date : String) (mi : ℕ)
    (fr : Bool) (hmiss : fr = true ∨ env.cached = none)
    (hro : env.retrieveOutcome = .ok []) :
    generate env date mi fr
      = .ok (create_empty_digest date "No relevant content found", false)
    ∧ (create_empty_digest date "No relevant content found").quality_badge = "⚠️"
    ∧ (create_empty_digest date "No relevant content found").insights = []
    ∧ (create_empty_digest date "No relevant content found").error
        = some "No relevant content found" := by
  refine ⟨?_, rfl, rfl, rfl⟩
  rw [generate_cache_miss env date mi fr hmiss]
  unfold generate
  simp [hro]

/-- Witness for `generate_empty_digest_spec` on a concrete environment
with empty retrieval. -/
theorem generate_empty_digest_spec_witness :
    ((true = true ∨ envNoChunks.cached = none)
      ∧ envNoChunks.retrieveOutcome = .ok [])
    ∧ (generate envNoChunks "2026-01-07" 7 true
        = .ok (create_empty_digest "2026-01-07" "No relevant content found", false)
      ∧ (create_empty_digest "2026-01-07" "No relevant content found").quality_badge
          = "⚠️"
      ∧ (create_empty_digest "2026-01-07" "No relevant content found").insights = []
      ∧ (create_empty_digest "2026-01-07" "No relevant content found").error
          = some "No relevant content found") :=
  ⟨⟨Or.inl rfl, rfl⟩,
    generate_empty_digest_spec envNoChunks "2026-01-07" 7 true (Or.inl rfl) rfl⟩

lemma exceptBind_ok {α β : Type} (a : α) (f : α → Except String β) :
    (Except.ok a >>= f) = f a := rfl

lemma exceptBind_error {α β : Type} (e : String) (f : α → Except String β) :
    ((Except.error e : Except String α) >>= f) = .error e := rfl

/-- Claim C10: `InsightSearch.search` never raises — it is a total
function — and any internal failure (digest-store read, embedding call,
or anything else that makes the body raise) is caught and turned into
the empty result list, indistinguishable by value from "no matching
insights". -/
theorem search_swallows_failures (env : SearchEnv) (mfs : Option ℕ) (limit : ℕ)
    (e : String) :
    (searchBody env mfs limit = .error e → search env mfs limit = [])
    ∧ (env.digests = .error e → search env mfs limit = [])
    ∧ (∀ ds, env.digests = .ok ds →
        (ds.flatMap fun d => d.insights.map fun i =>
          ({ insight := i, digest_date := d.digest_date, digest_id := d.id
             search_score := 0 } : ScoredInsight)).isEmpty = false →
        env.queryEmb = .error e → search env mfs limit = []) := by
  refine ⟨?_, ?_, ?_⟩
  · intro h
    simp [search, h]
  · intro h
    have hb : searchBody env mfs limit = .error e := by
      unfold searchBody
      rw [h, exceptBind_error]
    simp [search, hb]
  · intro ds hds hne hqe
    have hds' : ds.isEmpty = false := by
      cases ds with
      | nil => simp at hne
      | cons d rest => rfl
    have hb : searchBody env mfs limit = .error e := by
      unfold searchBody
      rw [hds]
      simp only [exceptBind_ok, hds', Bool.false_eq_true, if_false, hne, hqe,
        exceptBind_error]
      rfl
    simp [search, hb]

/-- Search environment whose digest-store read raises. -/
def envDbFail : SearchEnv :=
  { digests := .error "db down"
    queryEmb := .ok []
    insightEmb := fun _ => .ok []
    feedback := fun _ => .ok []
    sqrtFn := fun q => q }

/-- Witness for `search_swallows_failures`: a failing digest-store read
yields the empty result list. -/
theorem search_swallows_failures_witness :
    envDbFail.digests = .error "db down" ∧ search envDbFail none 10 = [] :=
  ⟨rfl, (search_swallows_failures envDbFail none 10 "db down").2.1 rfl⟩

end LearningCoach
